import Mathlib

/-!
Shallow embedding of the heat-map aggregator and renderer
`criar_mapa_calor` from `src/modulos/utils.py` of the repository
`filipe4ndrade/dados_sds_provisorios`.

Modelling notes.

A pandas DataFrame is modelled as a list of rows together with two
schema flags recording whether the columns `ANO` (year) and `MES`
(month) are present; the group-by column `col_municipio` and value
column `col_vitimas` are modelled as the fixed row fields `municipio`
and `vitimas` (the source threads column names but always selects one
municipality column and one numeric value column).  Numeric values are
modelled over the rationals, reflecting the exact arithmetic the source
performs on integer counts and decimal thresholds.

The table `COORDENADAS_MUNICIPIOS` is imported by `utils.py` from the
module `coordenadas`, whose contents are reference data; it is modelled
as an explicit lookup parameter `lookup : String → Option Coord` passed
to the renderer, so that every statement about resolvable and
unresolvable names quantifies over the table's behaviour.

A folium map is modelled as a `MapScene`: the fixed centre and zoom
given to `folium.Map`, the list of circle markers added in the loop
(each carrying the municipality name shown in its popup and tooltip,
the looked-up latitude and longitude, the computed radius and the
computed colour), and a flag recording whether the legend HTML block
was attached to the map.
-/

/-- A record row: the municipality column, the victim-count column, and
the (optional-schema) year and month columns `ANO` and `MES`. -/
structure Row where
  municipio : String
  vitimas : ℚ
  ano : Int
  mes : Int
deriving DecidableEq, Repr

/-- A DataFrame: rows plus schema flags saying whether the columns
`ANO` and `MES` exist (`'ANO' in df.columns` in the source). -/
structure DataFrame where
  hasAno : Bool
  hasMes : Bool
  rows : List Row
deriving DecidableEq, Repr

/-- A latitude and longitude pair, one entry of the coordinate lookup. -/
structure Coord where
  lat : ℚ
  lon : ℚ
deriving DecidableEq, Repr

/-- An aggregated group: a municipality key and its summed value. -/
structure Grupo where
  key : String
  value : ℚ
deriving DecidableEq, Repr

/-- A circle marker of the map scene: the municipality name (shown in
the popup and tooltip), the coordinate, the radius and the colour. -/
structure Marker where
  name : String
  lat : ℚ
  lon : ℚ
  radius : ℚ
  color : String
deriving DecidableEq, Repr

/-- The renderable output of `criar_mapa_calor`: centre, zoom, circle
markers, and whether the legend HTML block was attached. -/
structure MapScene where
  centerLat : ℚ
  centerLon : ℚ
  zoom : Nat
  markers : List Marker
  legend : Bool
deriving DecidableEq, Repr

/-- Year filter: `if ano is not None and 'ANO' in df_mapa.columns:
df_mapa = df_mapa[df_mapa['ANO'] == ano]`. -/
def filtrarAno (df : DataFrame) (ano : Option Int) : List Row :=
  match ano with
  | some a => if df.hasAno then df.rows.filter (fun r => r.ano = a) else df.rows
  | none => df.rows

/-- Month filter: `if mes is not None and 'MES' in df_mapa.columns:
df_mapa = df_mapa[df_mapa['MES'] == mes]`, applied after the year
filter. -/
def filtrarMes (df : DataFrame) (rows : List Row) (mes : Option Int) : List Row :=
  match mes with
  | some m => if df.hasMes then rows.filter (fun r => r.mes = m) else rows
  | none => rows

/-- The record set after both optional filters. -/
def filteredRows (df : DataFrame) (ano mes : Option Int) : List Row :=
  filtrarMes df (filtrarAno df ano) mes

/-- Sum of the value column over the rows of one municipality:
the column of `groupby(col_municipio)[col_vitimas].sum()` at key k. -/
def sumFor (rows : List Row) (k : String) : ℚ :=
  ((rows.filter (fun r => r.municipio = k)).map (fun r => r.vitimas)).sum

/-- The aggregation `df_mapa.groupby(col_municipio)[col_vitimas].sum()`:
one group per distinct municipality key occurring in the rows, carrying
the sum of its value column. -/
def groupSum (rows : List Row) : List Grupo :=
  ((rows.map (fun r => r.municipio)).dedup).map (fun k => ⟨k, sumFor rows k⟩)

/-- Insert a group into a value-descending list, keeping it descending. -/
def insertDesc (g : Grupo) : List Grupo → List Grupo
  | [] => [g]
  | h :: t => if h.value ≤ g.value then g :: h :: t else h :: insertDesc g t

/-- Sort groups by summed value, descending:
`.sort_values(ascending=False)`.  The source's tie order among equal
values is unspecified; an insertion sort fixes one order. -/
def sortDesc : List Grupo → List Grupo
  | [] => []
  | g :: t => insertDesc g (sortDesc t)

/-- The aggregated, ranked, truncated group list kept for rendering:
`groupby(...).sum().sort_values(ascending=False).head(top_n)`. -/
def keptAgg (df : DataFrame) (ano mes : Option Int) (top_n : Nat) : List Grupo :=
  (sortDesc (groupSum (filteredRows df ano mes))).take top_n

/-- Maximum of the value column over the aggregated groups:
`df_mapa_agg[col_vitimas].max()` (only consulted on a non-empty list). -/
def maxValueOf : List Grupo → ℚ
  | [] => 0
  | g :: t => t.foldl (fun m h => max m h.value) g.value

/-- Upper-casing of a string, character by character: `municipio.upper()`. -/
def upperStr (s : String) : String := ⟨s.data.map Char.toUpper⟩

/-- Removal of leading and trailing whitespace: `.strip()`. -/
def stripStr (s : String) : String :=
  ⟨((s.data.dropWhile Char.isWhitespace).reverse.dropWhile Char.isWhitespace).reverse⟩

/-- Municipality-name normalisation before the coordinate lookup:
`municipio.upper().strip()`. -/
def normalizar (s : String) : String := stripStr (upperStr s)

/-- The colour chosen for a group of value v against the maximum maxv:
the if/elif chain comparing `vitimas` to `max_vitimas * 0.7`, `* 0.4`
and `* 0.2` in the source. -/
def tierColor (v maxv : ℚ) : String :=
  if v > maxv * (7 / 10) then "#8B0000"
  else if v > maxv * (4 / 10) then "#DC143C"
  else if v > maxv * (2 / 10) then "#FF6347"
  else "#FFA07A"

/-- Intensity rank of the four tier colours, for monotonicity
statements: low < medium < high < very high. -/
def tierRank (c : String) : Nat :=
  if c = "#8B0000" then 3
  else if c = "#DC143C" then 2
  else if c = "#FF6347" then 1
  else 0

/-- Marker construction for one kept group: resolve the normalised name
in the lookup; on a hit build the circle with
`radius = (vitimas / max_vitimas) * 30000 + 5000` and the tier colour,
on a miss produce nothing. -/
def mkMarker (lookup : String → Option Coord) (maxv : ℚ) (g : Grupo) : Option Marker :=
  match lookup (normalizar g.key) with
  | some c => some ⟨g.key, c.lat, c.lon, g.value / maxv * 30000 + 5000, tierColor g.value maxv⟩
  | none => none

/-- The fixed map centre latitude `-8.0476` given to `folium.Map`. -/
def pernambucoLat : ℚ := -(80476 / 10000)

/-- The fixed map centre longitude `-35.8770` given to `folium.Map`. -/
def pernambucoLon : ℚ := -(358770 / 10000)

/-- The heat-map renderer `criar_mapa_calor`: filter, aggregate, rank,
truncate; on an empty aggregation return the bare centred map at once
(before the legend is attached); otherwise add one circle per kept
group whose normalised name resolves, then attach the legend block. -/
def criar_mapa_calor (lookup : String → Option Coord) (df : DataFrame)
    (ano mes : Option Int) (top_n : Nat) : MapScene :=
  let agg := keptAgg df ano mes top_n
  if agg.length = 0 then
    ⟨pernambucoLat, pernambucoLon, 7, [], false⟩
  else
    ⟨pernambucoLat, pernambucoLon, 7,
      agg.filterMap (mkMarker lookup (maxValueOf agg)), true⟩

/-- A concrete empty DataFrame (no rows, neither optional column). -/
def dfEmpty : DataFrame := ⟨false, false, []⟩

/-- A concrete lookup resolving nothing. -/
def lookupNone : String → Option Coord := fun _ => none

/-- A concrete DataFrame whose single record has a zero value. -/
def dfZero : DataFrame := ⟨false, false, [⟨"RECIFE", 0, 0, 0⟩]⟩

/-- The coordinate used for RECIFE in concrete scenarios. -/
def coordRecife : Coord := ⟨-(80538 / 10000), -(349711 / 10000)⟩

/-- The coordinate used for OLINDA in concrete scenarios. -/
def coordOlinda : Coord := ⟨-(80089 / 10000), -(348553 / 10000)⟩

/-- A concrete lookup resolving RECIFE and OLINDA but not ATLANTIS. -/
def lookupC4 : String → Option Coord := fun s =>
  if s = "RECIFE" then some coordRecife
  else if s = "OLINDA" then some coordOlinda
  else none

/-- The concrete scenario record set: RECIFE 100, OLINDA 40,
ATLANTIS 10. -/
def dfC4 : DataFrame :=
  ⟨false, false, [⟨"RECIFE", 100, 0, 0⟩, ⟨"OLINDA", 40, 0, 0⟩, ⟨"ATLANTIS", 10, 0, 0⟩]⟩

/-- A concrete DataFrame with one resolvable and one unresolvable
municipality, the unresolvable one carrying the larger value. -/
def dfMix : DataFrame :=
  ⟨false, false, [⟨"RECIFE", 5, 0, 0⟩, ⟨"ATLANTIS", 9, 0, 0⟩]⟩

/-! Helper lemmas about the embedded operations. -/

theorem insertDesc_perm (g : Grupo) (l : List Grupo) : List.Perm (insertDesc g l) (g :: l) := by
  induction l with
  | nil => exact List.Perm.refl _
  | cons h t ih =>
    unfold insertDesc
    split
    · exact List.Perm.refl _
    · exact (List.Perm.cons h ih).trans (List.Perm.swap g h t)

theorem sortDesc_perm (l : List Grupo) : List.Perm (sortDesc l) l := by
  induction l with
  | nil => exact List.Perm.refl _
  | cons g t ih =>
    show List.Perm (insertDesc g (sortDesc t)) (g :: t)
    exact (insertDesc_perm g (sortDesc t)).trans (List.Perm.cons g ih)

theorem mem_groupSum_of_mem_keptAgg {df : DataFrame} {ano mes : Option Int} {n : Nat}
    {g : Grupo} (hg : g ∈ keptAgg df ano mes n) :
    g ∈ groupSum (filteredRows df ano mes) :=
  (sortDesc_perm _).subset (List.mem_of_mem_take hg)

theorem exists_row_of_mem_groupSum {rows : List Row} {g : Grupo}
    (hg : g ∈ groupSum rows) :
    (∃ r ∈ rows, r.municipio = g.key) ∧ g.value = sumFor rows g.key := by
  unfold groupSum at hg
  obtain ⟨k, hk, hEq⟩ := List.mem_map.mp hg
  cases hEq
  have hk2 : k ∈ rows.map (fun r => r.municipio) := List.mem_dedup.mp hk
  obtain ⟨r, hr, hrk⟩ := List.mem_map.mp hk2
  exact ⟨⟨r, hr, hrk⟩, rfl⟩

theorem sumFor_pos {rows : List Row} (hpos : ∀ r ∈ rows, 0 < r.vitimas)
    {k : String} (hex : ∃ r ∈ rows, r.municipio = k) : 0 < sumFor rows k := by
  obtain ⟨r, hrmem, hrk⟩ := hex
  unfold sumFor
  apply List.sum_pos
  · intro x hx
    obtain ⟨r2, hr2, rfl⟩ := List.mem_map.mp hx
    exact hpos r2 (List.mem_of_mem_filter hr2)
  · intro hnil
    rw [List.map_eq_nil_iff] at hnil
    have hrf : r ∈ rows.filter (fun r2 => r2.municipio = k) :=
      List.mem_filter.mpr ⟨hrmem, by simp [hrk]⟩
    rw [hnil] at hrf
    exact absurd hrf (List.not_mem_nil r)

theorem filtrarAno_subset (df : DataFrame) (ano : Option Int) :
    filtrarAno df ano ⊆ df.rows := by
  unfold filtrarAno
  cases ano with
  | none => exact fun _ h => h
  | some a =>
    cases hB : df.hasAno with
    | false => simp
    | true =>
      simp only [if_pos]
      exact fun r hr => List.mem_of_mem_filter hr

theorem filtrarMes_subset (df : DataFrame) (rows : List Row) (mes : Option Int) :
    filtrarMes df rows mes ⊆ rows := by
  unfold filtrarMes
  cases mes with
  | none => exact fun _ h => h
  | some m =>
    cases hB : df.hasMes with
    | false => simp
    | true =>
      simp only [if_pos]
      exact fun r hr => List.mem_of_mem_filter hr

theorem mem_rows_of_mem_filteredRows {df : DataFrame} {ano mes : Option Int}
    {r : Row} (h : r ∈ filteredRows df ano mes) : r ∈ df.rows :=
  filtrarAno_subset df ano (filtrarMes_subset df (filtrarAno df ano) mes h)

theorem le_foldl_max (t : List Grupo) : ∀ a : ℚ, a ≤ t.foldl (fun m g => max m g.value) a := by
  induction t with
  | nil => exact fun a => le_refl a
  | cons h tl ih =>
    intro a
    exact le_trans (le_max_left a h.value) (ih (max a h.value))

theorem mem_le_foldl_max (t : List Grupo) :
    ∀ (a : ℚ) (g : Grupo), g ∈ t → g.value ≤ t.foldl (fun m g2 => max m g2.value) a := by
  induction t with
  | nil => intro a g hg; cases hg
  | cons h tl ih =>
    intro a g hg
    rcases List.mem_cons.mp hg with rfl | hg2
    · exact le_trans (le_max_right a g.value) (le_foldl_max tl _)
    · exact ih _ g hg2

theorem le_maxValueOf {g : Grupo} {gs : List Grupo} (hg : g ∈ gs) :
    g.value ≤ maxValueOf gs := by
  cases gs with
  | nil => cases hg
  | cons h t =>
    rcases List.mem_cons.mp hg with rfl | hg2
    · exact le_foldl_max t g.value
    · exact mem_le_foldl_max t h.value g hg2

theorem filterMap_length_countP {α β : Type} (f : α → Option β) (l : List α) :
    (l.filterMap f).length = l.countP (fun a => (f a).isSome) := by
  induction l with
  | nil => rfl
  | cons a t ih =>
    cases hfa : f a with
    | none => simp [List.filterMap_cons, hfa, List.countP_cons, ih]
    | some b => simp [List.filterMap_cons, hfa, List.countP_cons, ih]

theorem keys_groupSum (rows : List Row) :
    (groupSum rows).map (fun g => g.key) = (rows.map (fun r => r.municipio)).dedup := by
  unfold groupSum
  rw [List.map_map]
  exact List.map_id _

theorem nodup_keys_groupSum (rows : List Row) :
    ((groupSum rows).map (fun g => g.key)).Nodup := by
  rw [keys_groupSum]
  exact (rows.map (fun r => r.municipio)).nodup_dedup

theorem nodup_keys_keptAgg (df : DataFrame) (ano mes : Option Int) (n : Nat) :
    ((keptAgg df ano mes n).map (fun g => g.key)).Nodup := by
  have h1 := nodup_keys_groupSum (filteredRows df ano mes)
  have h2 : List.Perm ((sortDesc (groupSum (filteredRows df ano mes))).map (fun g => g.key))
      ((groupSum (filteredRows df ano mes)).map (fun g => g.key)) :=
    (sortDesc_perm _).map _
  have h3 : List.Sublist ((keptAgg df ano mes n).map (fun g => g.key))
      ((sortDesc (groupSum (filteredRows df ano mes))).map (fun g => g.key)) :=
    (List.take_sublist _ _).map _
  exact h3.nodup (h2.nodup_iff.mpr h1)

theorem criar_mapa_calor_of_ne_nil (lookup : String → Option Coord) (df : DataFrame)
    (ano mes : Option Int) (n : Nat) (h : keptAgg df ano mes n ≠ []) :
    criar_mapa_calor lookup df ano mes n =
      ⟨pernambucoLat, pernambucoLon, 7,
        (keptAgg df ano mes n).filterMap (mkMarker lookup (maxValueOf (keptAgg df ano mes n))),
        true⟩ := by
  unfold criar_mapa_calor
  rw [if_neg]
  simpa [List.length_eq_zero] using h

theorem criar_mapa_calor_of_nil (lookup : String → Option Coord) (df : DataFrame)
    (ano mes : Option Int) (n : Nat) (h : keptAgg df ano mes n = []) :
    criar_mapa_calor lookup df ano mes n =
      ⟨pernambucoLat, pernambucoLon, 7, [], false⟩ := by
  unfold criar_mapa_calor
  rw [if_pos]
  simp [h]

theorem mkMarker_isSome (lookup : String → Option Coord) (maxv : ℚ) (g : Grupo) :
    (mkMarker lookup maxv g).isSome = (lookup (normalizar g.key)).isSome := by
  unfold mkMarker
  cases lookup (normalizar g.key) <;> rfl

theorem mkMarker_name {lookup : String → Option Coord} {maxv : ℚ} {g : Grupo}
    {mk : Marker} (h : mkMarker lookup maxv g = some mk) : mk.name = g.key := by
  unfold mkMarker at h
  cases hl : lookup (normalizar g.key) with
  | none => rw [hl] at h; cases h
  | some c => rw [hl] at h; cases h; rfl

theorem tierColor_eq_very_high {v maxv : ℚ} (h1 : maxv * (7 / 10) < v) :
    tierColor v maxv = "#8B0000" := by
  unfold tierColor
  rw [if_pos h1]

theorem tierColor_eq_high {v maxv : ℚ} (h1 : ¬maxv * (7 / 10) < v)
    (h2 : maxv * (4 / 10) < v) : tierColor v maxv = "#DC143C" := by
  unfold tierColor
  rw [if_neg h1, if_pos h2]

theorem tierColor_eq_medium {v maxv : ℚ} (h1 : ¬maxv * (7 / 10) < v)
    (h2 : ¬maxv * (4 / 10) < v) (h3 : maxv * (2 / 10) < v) :
    tierColor v maxv = "#FF6347" := by
  unfold tierColor
  rw [if_neg h1, if_neg h2, if_pos h3]

theorem tierColor_eq_low {v maxv : ℚ} (h1 : ¬maxv * (7 / 10) < v)
    (h2 : ¬maxv * (4 / 10) < v) (h3 : ¬maxv * (2 / 10) < v) :
    tierColor v maxv = "#FFA07A" := by
  unfold tierColor
  rw [if_neg h1, if_neg h2, if_neg h3]

/-! Claim theorems. -/

/-- C1 (counterexample): at the concrete call with an empty record set
the aggregated group set is empty and the returned Map Scene does NOT
contain the legend block, contradicting the claim that the legend is
present regardless of marker count. -/
theorem empty_agg_scene_legend_cex :
    keptAgg dfEmpty none none 20 = [] ∧
    (criar_mapa_calor lookupNone dfEmpty none none 20).legend = false := by
  constructor
  · rfl
  · rfl

/-- C1 (amended): whenever the post-filter aggregated group set is
empty, the returned Map Scene is centred on the fixed default
coordinate (lat -8.0476, lon -35.8770) and contains no markers, but
the legend block is OMITTED (the function returns before attaching the
legend in this case). -/
theorem empty_agg_scene_bare_map (lookup : String → Option Coord) (df : DataFrame)
    (ano mes : Option Int) (n : Nat) (h : keptAgg df ano mes n = []) :
    (criar_mapa_calor lookup df ano mes n).centerLat = pernambucoLat ∧
    (criar_mapa_calor lookup df ano mes n).centerLon = pernambucoLon ∧
    (criar_mapa_calor lookup df ano mes n).markers = [] ∧
    (criar_mapa_calor lookup df ano mes n).legend = false := by
  rw [criar_mapa_calor_of_nil lookup df ano mes n h]
  exact ⟨rfl, rfl, rfl, rfl⟩

/-- C1 (witness): the amended statement at the concrete empty call. -/
theorem empty_agg_scene_bare_map_concrete :
    (criar_mapa_calor lookupNone dfEmpty none none 20).centerLat = pernambucoLat ∧
    (criar_mapa_calor lookupNone dfEmpty none none 20).centerLon = pernambucoLon ∧
    (criar_mapa_calor lookupNone dfEmpty none none 20).markers = [] ∧
    (criar_mapa_calor lookupNone dfEmpty none none 20).legend = false :=
  empty_agg_scene_bare_map lookupNone dfEmpty none none 20 rfl

/-- C4: on the scenario records RECIFE 100, OLINDA 40, ATLANTIS 10 with
top_n = 3, RECIFE and OLINDA resolvable and ATLANTIS not, the scene has
exactly two markers: RECIFE with the very-high colour (ratio 1.0) and
OLINDA with the medium colour (ratio 0.4, not strictly above 0.40). -/
theorem scenario_recife_olinda_atlantis :
    (criar_mapa_calor lookupC4 dfC4 none none 3).markers.length = 2 ∧
    (criar_mapa_calor lookupC4 dfC4 none none 3).markers.map (fun mk => (mk.name, mk.color)) =
      [("RECIFE", "#8B0000"), ("OLINDA", "#FF6347")] := by
  constructor
  · simp +decide [criar_mapa_calor, keptAgg, groupSum, filteredRows, filtrarAno, filtrarMes,
      dfC4, sumFor, sortDesc, insertDesc, maxValueOf, mkMarker, lookupC4, tierColor, max_def,
      List.filterMap_cons]
  · simp +decide [criar_mapa_calor, keptAgg, groupSum, filteredRows, filtrarAno, filtrarMes,
      dfC4, sumFor, sortDesc, insertDesc, maxValueOf, mkMarker, lookupC4, tierColor, max_def,
      List.filterMap_cons]
    norm_num

/-- C10: whenever the aggregated group set is non-empty but no kept
group's normalised name resolves in the lookup, the scene has zero
markers and the legend block is still present. -/
theorem unresolvable_groups_scene (lookup : String → Option Coord) (df : DataFrame)
    (ano mes : Option Int) (n : Nat) (hne : keptAgg df ano mes n ≠ [])
    (hmiss : ∀ g ∈ keptAgg df ano mes n, lookup (normalizar g.key) = none) :
    (criar_mapa_calor lookup df ano mes n).markers = [] ∧
    (criar_mapa_calor lookup df ano mes n).legend = true := by
  rw [criar_mapa_calor_of_ne_nil lookup df ano mes n hne]
  refine ⟨?_, rfl⟩
  show List.filterMap _ _ = []
  rw [List.filterMap_eq_nil_iff]
  intro g hg
  unfold mkMarker
  rw [hmiss g hg]

/-- C10 (witness): the statement at a concrete non-empty record set
none of whose municipality names resolves. -/
theorem unresolvable_groups_scene_concrete :
    (criar_mapa_calor lookupNone dfMix none none 20).markers = [] ∧
    (criar_mapa_calor lookupNone dfMix none none 20).legend = true :=
  unresolvable_groups_scene lookupNone dfMix none none 20
    (by simp +decide [keptAgg, groupSum, filteredRows, filtrarAno, filtrarMes, dfMix,
      sumFor, sortDesc, insertDesc])
    (fun g _ => rfl)

/-- C2: against a positive maximum, the tier boundaries are
exclusive-lower on the ratio value/max: a ratio of exactly 0.70 gets
the high colour (crimson), exactly 0.40 the medium colour (tomato),
exactly 0.20 the low colour (light salmon); strictly above 0.70 is very
high, strictly above 0.40 (and at most 0.70) is high, strictly above
0.20 (and at most 0.40) is medium, and at most 0.20 is low. -/
theorem tier_boundary_exclusive (v maxv : ℚ) (hmax : 0 < maxv) :
    (v / maxv = 7 / 10 → tierColor v maxv = "#DC143C") ∧
    (v / maxv = 4 / 10 → tierColor v maxv = "#FF6347") ∧
    (v / maxv = 2 / 10 → tierColor v maxv = "#FFA07A") ∧
    (7 / 10 < v / maxv → tierColor v maxv = "#8B0000") ∧
    (4 / 10 < v / maxv → v / maxv ≤ 7 / 10 → tierColor v maxv = "#DC143C") ∧
    (2 / 10 < v / maxv → v / maxv ≤ 4 / 10 → tierColor v maxv = "#FF6347") ∧
    (v / maxv ≤ 2 / 10 → tierColor v maxv = "#FFA07A") := by
  have hne : maxv ≠ 0 := ne_of_gt hmax
  refine ⟨fun h => ?_, fun h => ?_, fun h => ?_, fun h => ?_,
    fun h h2 => ?_, fun h h2 => ?_, fun h => ?_⟩
  · have hv : v = 7 / 10 * maxv := (div_eq_iff hne).mp h
    exact tierColor_eq_high (not_lt.mpr (by linarith)) (by linarith)
  · have hv : v = 4 / 10 * maxv := (div_eq_iff hne).mp h
    exact tierColor_eq_medium (not_lt.mpr (by linarith)) (not_lt.mpr (by linarith)) (by linarith)
  · have hv : v = 2 / 10 * maxv := (div_eq_iff hne).mp h
    exact tierColor_eq_low (not_lt.mpr (by linarith)) (not_lt.mpr (by linarith))
      (not_lt.mpr (by linarith))
  · have hv : 7 / 10 * maxv < v := (lt_div_iff₀ hmax).mp h
    exact tierColor_eq_very_high (by linarith)
  · have hv1 : 4 / 10 * maxv < v := (lt_div_iff₀ hmax).mp h
    have hv2 : v ≤ 7 / 10 * maxv := (div_le_iff₀ hmax).mp h2
    exact tierColor_eq_high (not_lt.mpr (by linarith)) (by linarith)
  · have hv1 : 2 / 10 * maxv < v := (lt_div_iff₀ hmax).mp h
    have hv2 : v ≤ 4 / 10 * maxv := (div_le_iff₀ hmax).mp h2
    exact tierColor_eq_medium (not_lt.mpr (by linarith)) (not_lt.mpr (by linarith)) (by linarith)
  · have hv : v ≤ 2 / 10 * maxv := (div_le_iff₀ hmax).mp h
    exact tierColor_eq_low (not_lt.mpr (by linarith)) (not_lt.mpr (by linarith))
      (not_lt.mpr (by linarith))

/-- C2 (witness): a group at exactly 70 percent of a maximum of 10 gets
the high colour, by the boundary theorem at v = 7, maxv = 10. -/
theorem tier_boundary_exclusive_concrete : tierColor 7 10 = "#DC143C" :=
  (tier_boundary_exclusive 7 10 (by norm_num)).1 (by norm_num)

/-- C9: the tier classification is monotone in the summed value: for
two groups compared against the same maximum, the strictly larger value
never gets a strictly lower intensity colour. -/
theorem tier_monotone_in_value (vA vB maxv : ℚ) (h : vB < vA) :
    tierRank (tierColor vB maxv) ≤ tierRank (tierColor vA maxv) := by
  unfold tierColor
  split_ifs <;> first | decide | linarith

/-- C9 (witness): the monotonicity statement at values 40 < 100 against
the maximum 100. -/
theorem tier_monotone_in_value_concrete :
    tierRank (tierColor 40 100) ≤ tierRank (tierColor 100 100) :=
  tier_monotone_in_value 100 40 100 (by norm_num)

/-- C3 (counterexample): a record set whose single record has value 0
produces a NON-empty aggregated group set whose maximum summed value is
0, so the claim that a non-empty group set forces a non-zero max_value
(and hence a safe division) fails on the code: `groupby(...).sum()`
keeps zero-sum groups. -/
theorem maxValueOf_zero_cex :
    keptAgg dfZero none none 20 ≠ [] ∧ maxValueOf (keptAgg dfZero none none 20) = 0 := by
  constructor
  · simp +decide [keptAgg, groupSum, filteredRows, filtrarAno, filtrarMes, dfZero,
      sumFor, sortDesc, insertDesc]
  · simp +decide [keptAgg, groupSum, filteredRows, filtrarAno, filtrarMes, dfZero,
      sumFor, sortDesc, insertDesc, maxValueOf]

/-- C3 (amended): provided every record's value is strictly positive,
every group surviving grouping has a strictly positive summed value, so
for a non-empty aggregated group set the maximum summed value is
strictly positive and the division by max_value is safe. -/
theorem maxValueOf_pos_of_pos_rows (df : DataFrame) (ano mes : Option Int) (n : Nat)
    (hpos : ∀ r ∈ df.rows, 0 < r.vitimas) (hne : keptAgg df ano mes n ≠ []) :
    0 < maxValueOf (keptAgg df ano mes n) := by
  obtain ⟨g, hg⟩ := List.exists_mem_of_ne_nil _ hne
  obtain ⟨⟨r, hr, hrk⟩, hval⟩ := exists_row_of_mem_groupSum (mem_groupSum_of_mem_keptAgg hg)
  have hgv : 0 < g.value := by
    rw [hval]
    exact sumFor_pos (fun r2 hr2 => hpos r2 (mem_rows_of_mem_filteredRows hr2)) ⟨r, hr, hrk⟩
  exact lt_of_lt_of_le hgv (le_maxValueOf hg)

/-- C3 (witness): the amended statement at a concrete record set with
strictly positive values. -/
theorem maxValueOf_pos_concrete : 0 < maxValueOf (keptAgg dfMix none none 20) :=
  maxValueOf_pos_of_pos_rows dfMix none none 20
    (by intro r hr; fin_cases hr <;> norm_num [dfMix])
    (by simp +decide [keptAgg, groupSum, filteredRows, filtrarAno, filtrarMes, dfMix,
      sumFor, sortDesc, insertDesc])

/-- C5: for positive top_n, the number of markers never exceeds top_n
and never exceeds the number of distinct group keys whose normalised
name resolves in the lookup. -/
theorem markers_within_top_n_and_resolvable (lookup : String → Option Coord)
    (df : DataFrame) (ano mes : Option Int) (n : Nat) (_hn : 0 < n) :
    (criar_mapa_calor lookup df ano mes n).markers.length ≤ n ∧
    (criar_mapa_calor lookup df ano mes n).markers.length ≤
      (groupSum (filteredRows df ano mes)).countP
        (fun g => (lookup (normalizar g.key)).isSome) := by
  by_cases hnil : keptAgg df ano mes n = []
  · rw [criar_mapa_calor_of_nil lookup df ano mes n hnil]
    exact ⟨Nat.zero_le n, Nat.zero_le _⟩
  · rw [criar_mapa_calor_of_ne_nil lookup df ano mes n hnil]
    constructor
    · calc ((keptAgg df ano mes n).filterMap
            (mkMarker lookup (maxValueOf (keptAgg df ano mes n)))).length
          ≤ (keptAgg df ano mes n).length := List.length_filterMap_le _ _
        _ ≤ n := List.length_take_le n _
    · show ((keptAgg df ano mes n).filterMap _).length ≤ _
      rw [filterMap_length_countP]
      have hcong : (keptAgg df ano mes n).countP
            (fun g => (mkMarker lookup (maxValueOf (keptAgg df ano mes n)) g).isSome) =
          (keptAgg df ano mes n).countP (fun g => (lookup (normalizar g.key)).isSome) :=
        List.countP_congr (fun g _ => by rw [mkMarker_isSome])
      rw [hcong]
      have h1 : (keptAgg df ano mes n).countP (fun g => (lookup (normalizar g.key)).isSome) ≤
          (sortDesc (groupSum (filteredRows df ano mes))).countP
            (fun g => (lookup (normalizar g.key)).isSome) :=
        (List.take_sublist _ _).countP_le _
      have h2 : (sortDesc (groupSum (filteredRows df ano mes))).countP
            (fun g => (lookup (normalizar g.key)).isSome) =
          (groupSum (filteredRows df ano mes)).countP
            (fun g => (lookup (normalizar g.key)).isSome) :=
        (sortDesc_perm _).countP_eq _
      rw [← h2]
      exact h1

/-- C5 (witness): the bound at the concrete scenario call with
top_n = 3. -/
theorem markers_within_top_n_and_resolvable_concrete :
    (criar_mapa_calor lookupC4 dfC4 none none 3).markers.length ≤ 3 ∧
    (criar_mapa_calor lookupC4 dfC4 none none 3).markers.length ≤
      (groupSum (filteredRows dfC4 none none)).countP
        (fun g => (lookupC4 (normalizar g.key)).isSome) :=
  markers_within_top_n_and_resolvable lookupC4 dfC4 none none 3 (by norm_num)

/-- C6: a kept group whose normalised name does not resolve produces no
marker (no marker of the scene carries its municipality name), yet its
summed value still takes part in the maximum used for the radius and
tier of the other groups. -/
theorem lookup_miss_isolated (lookup : String → Option Coord) (df : DataFrame)
    (ano mes : Option Int) (n : Nat) (g : Grupo) (hg : g ∈ keptAgg df ano mes n)
    (hmiss : lookup (normalizar g.key) = none) :
    (∀ mk ∈ (criar_mapa_calor lookup df ano mes n).markers, mk.name ≠ g.key) ∧
    g.value ≤ maxValueOf (keptAgg df ano mes n) := by
  have hne : keptAgg df ano mes n ≠ [] := by
    intro hav
    rw [hav] at hg
    exact absurd hg (List.not_mem_nil g)
  refine ⟨?_, le_maxValueOf hg⟩
  rw [criar_mapa_calor_of_ne_nil lookup df ano mes n hne]
  intro mk hmk hname
  obtain ⟨g2, hg2, hsome⟩ := List.mem_filterMap.mp hmk
  have hkey : mk.name = g2.key := mkMarker_name hsome
  have hgg : g2 = g := by
    refine List.inj_on_of_nodup_map (nodup_keys_keptAgg df ano mes n) hg2 hg ?_
    rw [← hkey]
    exact hname
  rw [hgg] at hsome
  unfold mkMarker at hsome
  rw [hmiss] at hsome
  cases hsome

/-- C6 (witness): the statement at the concrete mixed record set, on
the unresolvable group ATLANTIS whose value 9 is the maximum. -/
theorem lookup_miss_isolated_concrete :
    (∀ mk ∈ (criar_mapa_calor lookupC4 dfMix none none 20).markers, mk.name ≠ "ATLANTIS") ∧
    (9 : ℚ) ≤ maxValueOf (keptAgg dfMix none none 20) :=
  lookup_miss_isolated lookupC4 dfMix none none 20 ⟨"ATLANTIS", 9⟩
    (by simp +decide [keptAgg, groupSum, filteredRows, filtrarAno, filtrarMes, dfMix,
      sumFor, sortDesc, insertDesc])
    rfl

/-- C7: every kept group whose normalised name resolves contributes a
marker whose radius is exactly (value / max_value) * 30000 + 5000 and
whose colour is its tier colour. -/
theorem marker_radius_formula (lookup : String → Option Coord) (df : DataFrame)
    (ano mes : Option Int) (n : Nat) (g : Grupo) (c : Coord)
    (hg : g ∈ keptAgg df ano mes n) (hc : lookup (normalizar g.key) = some c) :
    (⟨g.key, c.lat, c.lon,
      g.value / maxValueOf (keptAgg df ano mes n) * 30000 + 5000,
      tierColor g.value (maxValueOf (keptAgg df ano mes n))⟩ : Marker) ∈
      (criar_mapa_calor lookup df ano mes n).markers := by
  have hne : keptAgg df ano mes n ≠ [] := by
    intro hav
    rw [hav] at hg
    exact absurd hg (List.not_mem_nil g)
  rw [criar_mapa_calor_of_ne_nil lookup df ano mes n hne]
  refine List.mem_filterMap.mpr ⟨g, hg, ?_⟩
  unfold mkMarker
  rw [hc]

/-- C7 (witness): the radius formula marker for RECIFE in the concrete
scenario call. -/
theorem marker_radius_formula_concrete :
    (⟨"RECIFE", coordRecife.lat, coordRecife.lon,
      (100 : ℚ) / maxValueOf (keptAgg dfC4 none none 3) * 30000 + 5000,
      tierColor 100 (maxValueOf (keptAgg dfC4 none none 3))⟩ : Marker) ∈
      (criar_mapa_calor lookupC4 dfC4 none none 3).markers :=
  marker_radius_formula lookupC4 dfC4 none none 3 ⟨"RECIFE", 100⟩ coordRecife
    (by simp +decide [keptAgg, groupSum, filteredRows, filtrarAno, filtrarMes, dfC4,
      sumFor, sortDesc, insertDesc])
    rfl

/-- C8: a supplied year filter with the year column absent, or a
supplied month filter with the month column absent, is a no-op: the
scene equals the one computed without that filter, and no error is
raised (the renderer is total). -/
theorem missing_column_filter_noop (lookup : String → Option Coord) (df : DataFrame)
    (ano mes : Option Int) (n : Nat) (a m : Int) :
    (df.hasAno = false →
      criar_mapa_calor lookup df (some a) mes n = criar_mapa_calor lookup df none mes n) ∧
    (df.hasMes = false →
      criar_mapa_calor lookup df ano (some m) n = criar_mapa_calor lookup df ano none n) := by
  constructor
  · intro h
    have hrows : filteredRows df (some a) mes = filteredRows df none mes := by
      unfold filteredRows filtrarAno
      rw [h]
      simp
    unfold criar_mapa_calor keptAgg
    rw [hrows]
  · intro h
    have hrows : filteredRows df ano (some m) = filteredRows df ano none := by
      unfold filteredRows filtrarMes
      rw [h]
      simp
    unfold criar_mapa_calor keptAgg
    rw [hrows]

/-- C8 (witness): both no-op statements at a concrete record set that
has neither an ANO nor a MES column. -/
theorem missing_column_filter_noop_concrete :
    criar_mapa_calor lookupC4 dfC4 (some 2020) none 3 =
      criar_mapa_calor lookupC4 dfC4 none none 3 ∧
    criar_mapa_calor lookupC4 dfC4 none (some 5) 3 =
      criar_mapa_calor lookupC4 dfC4 none none 3 :=
  ⟨(missing_column_filter_noop lookupC4 dfC4 none none 3 2020 5).1 rfl,
   (missing_column_filter_noop lookupC4 dfC4 none none 3 2020 5).2 rfl⟩
